import Mathlib

/-!
Shallow embedding of the 6502 CPU core of the `rust-nes` emulator
(src/cpu.rs, src/opcodes.rs, src/trace.rs).  Machine integers u8/u16 are
modelled as `Nat` with explicit `% 256` / `% 65536` where the Rust types
wrap or truncate.  Memory is a total function `Nat → Nat`; reads normalise
the address modulo 2^16 and the value modulo 2^8, reflecting the `u16`/`u8`
types of the bus interface.
-/

set_option maxRecDepth 4000

/-! ## Definitions: the embedded CPU core, trace formatter and concrete states -/

/-- `CpuFlags::CARRY` (src/cpu.rs line 7). -/
def CARRY : Nat := 0x01

/-- `CpuFlags::ZERO` (src/cpu.rs line 8). -/
def ZERO : Nat := 0x02

/-- `CpuFlags::INTERRUPT_DISABLE` (src/cpu.rs line 9). -/
def INTERRUPT_DISABLE : Nat := 0x04

/-- `CpuFlags::DECIMAL_MODE` (src/cpu.rs line 10). -/
def DECIMAL_MODE : Nat := 0x08

/-- `CpuFlags::BREAK` (src/cpu.rs line 11). -/
def BREAK : Nat := 0x10

/-- `CpuFlags::BREAK2` (src/cpu.rs line 12), the U bit. -/
def BREAK2 : Nat := 0x20

/-- `CpuFlags::OVERFLOW` (src/cpu.rs line 13). -/
def OVERFLOW : Nat := 0x40

/-- `CpuFlags::NEGATIVE` (src/cpu.rs line 14). -/
def NEGATIVE : Nat := 0x80

/-- `bitflags` `insert`: set the bits of `f` in `s`. -/
def insertFlag (s f : Nat) : Nat := s ||| f

/-- `bitflags` `remove`: clear the bits of `f` in `s` (flag universe is 8 bits). -/
def removeFlag (s f : Nat) : Nat := s &&& (255 ^^^ f)

/-- `bitflags` `contains` for a single-mask query: `s & f != 0`. -/
def containsFlag (s f : Nat) : Bool := s &&& f != 0

/-- `bitflags` `set`: insert when the condition holds, remove otherwise. -/
def setFlag (s f : Nat) (b : Bool) : Nat := if b then insertFlag s f else removeFlag s f

/-- `AddressingMode` (src/cpu.rs lines 33-44). -/
inductive AddressingMode where
  | Immediate
  | ZeroPage
  | ZeroPage_X
  | ZeroPage_Y
  | Absolute
  | Absolute_X
  | Absolute_Y
  | Indirect_X
  | Indirect_Y
  | NoneAddressing
deriving DecidableEq

/-- `const STACK: u16 = 0x0100` (src/cpu.rs line 18). -/
def STACK : Nat := 0x0100

/-- CPU state (src/cpu.rs lines 21-29).  The bus is modelled by its RAM
(`mem`, a total function, values read modulo 256) together with the cycle
budget `cycles` that `Bus::tick` advances. -/
structure CPU where
  register_a : Nat
  register_x : Nat
  register_y : Nat
  status : Nat
  program_counter : Nat
  stack_pointer : Nat
  mem : Nat → Nat
  cycles : Nat

/-- `Bus::tick(n)`: advance the cycle budget. -/
def CPU.tick (c : CPU) (n : Nat) : CPU := { c with cycles := c.cycles + n }

/-- `mem_read` (src/cpu.rs lines 65-67): an 8-bit value at a 16-bit address. -/
def CPU.mem_read (c : CPU) (addr : Nat) : Nat := c.mem (addr % 65536) % 256

/-- `mem_write` (src/cpu.rs lines 69-71). -/
def CPU.mem_write (c : CPU) (addr val : Nat) : CPU :=
  { c with mem := fun a => if a = addr % 65536 then val % 256 else c.mem a }

/-- `mem_read_u16` (src/cpu.rs lines 51-55): little-endian 16-bit read. -/
def CPU.mem_read_u16 (c : CPU) (pos : Nat) : Nat :=
  c.mem_read pos + 256 * c.mem_read (pos + 1)

/-- `page_cross` (src/cpu.rs lines 104-106). -/
def page_cross (addr1 addr2 : Nat) : Bool := addr1 &&& 0xFF00 != addr2 &&& 0xFF00

/-- `get_absolute_address` (src/cpu.rs lines 121-166).  The `_ => panic!`
arm (Immediate / NoneAddressing) is unreachable in every verified path and
is mapped to `(0, false)`. -/
def CPU.get_absolute_address (c : CPU) (mode : AddressingMode) (addr : Nat) : Nat × Bool :=
  match mode with
  | .ZeroPage => (c.mem_read addr, false)
  | .Absolute => (c.mem_read_u16 addr, false)
  | .ZeroPage_X =>
      let pos := c.mem_read addr
      ((pos + c.register_x) % 256, false)
  | .ZeroPage_Y =>
      let pos := c.mem_read addr
      ((pos + c.register_y) % 256, false)
  | .Absolute_X =>
      let base := c.mem_read_u16 addr
      let a := (base + c.register_x) % 65536
      (a, page_cross base a)
  | .Absolute_Y =>
      let base := c.mem_read_u16 addr
      let a := (base + c.register_y) % 65536
      (a, page_cross base a)
  | .Indirect_X =>
      let base := c.mem_read addr
      let ptr := (base + c.register_x) % 256
      let lo := c.mem_read ptr
      let hi := c.mem_read ((ptr + 1) % 256)
      (hi <<< 8 ||| lo, false)
  | .Indirect_Y =>
      let base := c.mem_read addr
      let lo := c.mem_read base
      let hi := c.mem_read ((base + 1) % 256)
      let deref_base := hi <<< 8 ||| lo
      let deref := (deref_base + c.register_y) % 65536
      (deref, page_cross deref_base deref)
  | _ => (0, false)

/-- `get_operand_address` (src/cpu.rs lines 168-173). -/
def CPU.get_operand_address (c : CPU) (mode : AddressingMode) : Nat × Bool :=
  match mode with
  | .Immediate => (c.program_counter, false)
  | _ => c.get_absolute_address mode c.program_counter

/-- `update_negative_flag` (src/cpu.rs lines 185-191). -/
def CPU.update_negative_flag (c : CPU) (result : Nat) : CPU :=
  { c with status := if result >>> 7 = 1 then insertFlag c.status NEGATIVE
                     else removeFlag c.status NEGATIVE }

/-- `update_zero_and_negative_flags` (src/cpu.rs lines 175-183). -/
def CPU.update_zero_and_negative_flags (c : CPU) (result : Nat) : CPU :=
  let c := { c with status := if result = 0 then insertFlag c.status ZERO
                              else removeFlag c.status ZERO }
  c.update_negative_flag result

/-- `set_register_a` (src/cpu.rs lines 193-196). -/
def CPU.set_register_a (c : CPU) (value : Nat) : CPU :=
  let c := { c with register_a := value }
  c.update_zero_and_negative_flags c.register_a

/-- `stack_push` (src/cpu.rs lines 286-289): write at `$0100 + SP`, then
decrement SP with 8-bit wrap. -/
def CPU.stack_push (c : CPU) (value : Nat) : CPU :=
  let c := c.mem_write (STACK + c.stack_pointer) value
  { c with stack_pointer := (c.stack_pointer + 255) % 256 }

/-- `stack_pop` (src/cpu.rs lines 281-284): increment SP with 8-bit wrap,
then read at `$0100 + SP`. -/
def CPU.stack_pop (c : CPU) : CPU × Nat :=
  let sp := (c.stack_pointer + 1) % 256
  ({ c with stack_pointer := sp }, c.mem_read (STACK + sp))

/-- `stack_push_u16` (src/cpu.rs lines 297-301): push high byte, then low byte. -/
def CPU.stack_push_u16 (c : CPU) (data : Nat) : CPU :=
  let c := c.stack_push (data / 256 % 256)
  c.stack_push (data % 256)

/-- `php` (src/cpu.rs lines 303-308): push P with BREAK and BREAK2 inserted. -/
def CPU.php (c : CPU) : CPU :=
  let flags := insertFlag (insertFlag c.status BREAK) BREAK2
  c.stack_push flags

/-- `plp` (src/cpu.rs lines 310-314): pop into P, remove BREAK, insert BREAK2. -/
def CPU.plp (c : CPU) : CPU :=
  let (c, b) := c.stack_pop
  let c := { c with status := b }
  let c := { c with status := removeFlag c.status BREAK }
  { c with status := insertFlag c.status BREAK2 }

/-- `add_to_register_a` (src/cpu.rs lines 316-339): the ADC/SBC core. -/
def CPU.add_to_register_a (c : CPU) (value : Nat) : CPU :=
  let sum := c.register_a + value + (if containsFlag c.status CARRY then 1 else 0)
  let c := { c with status := if sum > 0xff then insertFlag c.status CARRY
                              else removeFlag c.status CARRY }
  let result := sum % 256
  let c := { c with status := if (value ^^^ result) &&& (result ^^^ c.register_a) &&& 0x80 ≠ 0
                              then insertFlag c.status OVERFLOW
                              else removeFlag c.status OVERFLOW }
  c.set_register_a result

/-- The operand transform in `sbc` (src/cpu.rs line 354):
`((value as i8).wrapping_neg().wrapping_sub(1)) as u8`. -/
def sbc_operand (value : Nat) : Nat := ((256 - value % 256) % 256 + 255) % 256

/-- `sbc` after operand-address resolution (src/cpu.rs lines 351-359 minus
the page-cross tick, which depends only on the addressing mode). -/
def CPU.sbc_at (c : CPU) (addr : Nat) : CPU :=
  let value := c.mem_read addr
  c.add_to_register_a (sbc_operand value)

/-- `compare` after operand-address resolution (src/cpu.rs lines 556-571). -/
def CPU.compare_at (c : CPU) (addr : Nat) (compare_value : Nat) (pg : Bool) : CPU :=
  let data := c.mem_read addr
  let c := { c with status := if data ≤ compare_value then insertFlag c.status CARRY
                              else removeFlag c.status CARRY }
  let c := c.update_zero_and_negative_flags ((compare_value + 256 - data) % 256)
  if pg then c.tick 1 else c

/-- `dec` after operand-address resolution (src/cpu.rs lines 538-544). -/
def CPU.dec_at (c : CPU) (addr : Nat) : CPU :=
  let data := c.mem_read addr
  let data := (data + 255) % 256
  let c := c.mem_write addr data
  c.update_zero_and_negative_flags data

/-- `dcp` after operand-address resolution (src/cpu.rs lines 623-634).
Note the CARRY flag is only ever inserted, never removed. -/
def CPU.dcp_at (c : CPU) (addr : Nat) : CPU :=
  let data := c.mem_read addr
  let data := (data + 255) % 256
  let c := c.mem_write addr data
  let c := { c with status := if data ≤ c.register_a then insertFlag c.status CARRY
                              else c.status }
  c.update_zero_and_negative_flags ((c.register_a + 256 - data) % 256)

/-- `axs` after operand-address resolution (src/cpu.rs lines 636-650). -/
def CPU.axs_at (c : CPU) (addr : Nat) : CPU :=
  let data := c.mem_read addr
  let x_a := c.register_x &&& c.register_y
  let c := { c with register_x := (x_a + 256 - data) % 256 }
  let c := { c with status := if data ≤ c.register_x then insertFlag c.status CARRY
                              else removeFlag c.status CARRY }
  c.update_zero_and_negative_flags c.register_x

/-- `rol_acc` (src/cpu.rs lines 445-460). -/
def CPU.rol_acc (c : CPU) : CPU :=
  let data := c.register_a
  let old_carry := containsFlag c.status CARRY
  let c := { c with status := if data >>> 7 = 1 then insertFlag c.status CARRY
                              else removeFlag c.status CARRY }
  let data := (data <<< 1) % 256
  let data := if old_carry then data ||| 1 else data
  c.set_register_a data

/-- `rol` after operand-address resolution (src/cpu.rs lines 462-480):
stores the rotated byte and updates only the NEGATIVE flag. -/
def CPU.rol_at (c : CPU) (addr : Nat) : CPU × Nat :=
  let data := c.mem_read addr
  let old_carry := containsFlag c.status CARRY
  let c := { c with status := if data >>> 7 = 1 then insertFlag c.status CARRY
                              else removeFlag c.status CARRY }
  let data := (data <<< 1) % 256
  let data := if old_carry then data ||| 1 else data
  let c := c.mem_write addr data
  (c.update_negative_flag data, data)

/-- `ror_acc` (src/cpu.rs lines 482-497). -/
def CPU.ror_acc (c : CPU) : CPU :=
  let data := c.register_a
  let old_carry := containsFlag c.status CARRY
  let c := { c with status := if data &&& 1 = 1 then insertFlag c.status CARRY
                              else removeFlag c.status CARRY }
  let data := data >>> 1
  let data := if old_carry then data ||| 0b10000000 else data
  c.set_register_a data

/-- `ror` after operand-address resolution (src/cpu.rs lines 499-517):
stores the rotated byte and updates only the NEGATIVE flag. -/
def CPU.ror_at (c : CPU) (addr : Nat) : CPU × Nat :=
  let data := c.mem_read addr
  let old_carry := containsFlag c.status CARRY
  let c := { c with status := if data &&& 1 = 1 then insertFlag c.status CARRY
                              else removeFlag c.status CARRY }
  let data := data >>> 1
  let data := if old_carry then data ||| 0b10000000 else data
  let c := c.mem_write addr data
  (c.update_negative_flag data, data)

/-- `ldx` (src/cpu.rs lines 209-219). -/
def CPU.ldx (c : CPU) (mode : AddressingMode) : CPU :=
  let (addr, pg) := c.get_operand_address mode
  let value := c.mem_read addr
  let c := { c with register_x := value }
  let c := c.update_zero_and_negative_flags c.register_x
  if pg then c.tick 1 else c

/-- `dex` (src/cpu.rs lines 546-549). -/
def CPU.dex (c : CPU) : CPU :=
  let c := { c with register_x := (c.register_x + 255) % 256 }
  c.update_zero_and_negative_flags c.register_x

/-- `dey` (src/cpu.rs lines 551-554). -/
def CPU.dey (c : CPU) : CPU :=
  let c := { c with register_y := (c.register_y + 255) % 256 }
  c.update_zero_and_negative_flags c.register_y

/-- `interrupt::NMI` (src/cpu.rs lines 96-101). -/
def NMI_vector_addr : Nat := 0xFFFA

/-- `interrupt::NMI.b_flag_mask`. -/
def NMI_b_flag_mask : Nat := 0b00100000

/-- `interrupt::NMI.cpu_cycles`. -/
def NMI_cpu_cycles : Nat := 2

/-- `interrupt` (src/cpu.rs lines 744-755) instantiated with `interrupt::NMI`.
Both `set` conditions compare a masked value against `1`, exactly as the
source does. -/
def CPU.interrupt_nmi (c : CPU) : CPU :=
  let c := c.stack_push_u16 c.program_counter
  let flag := c.status
  let flag := setFlag flag BREAK (NMI_b_flag_mask &&& 0b010000 == 1)
  let flag := setFlag flag BREAK2 (NMI_b_flag_mask &&& 0b100000 == 1)
  let c := c.stack_push flag
  let c := { c with status := insertFlag c.status INTERRUPT_DISABLE }
  let c := c.tick NMI_cpu_cycles
  { c with program_counter := c.mem_read_u16 NMI_vector_addr }

/-- A concrete machine state used to instantiate universally quantified
theorems: A=$10, X=$22, Y=$33, P=$24, PC=$0600, SP=$FD, zeroed RAM. -/
def sampleCpu : CPU :=
  { register_a := 0x10, register_x := 0x22, register_y := 0x33, status := 0x24,
    program_counter := 0x0600, stack_pointer := 0xFD, mem := fun _ => 0, cycles := 0 }

/-- A state refuting C5 as stated: CARRY already set, A = 0, operand cell
$0010 = 2 (so the decremented value 1 exceeds A). -/
def dcpCex : CPU :=
  { register_a := 0, register_x := 0, register_y := 0, status := 0x25,
    program_counter := 0, stack_pointer := 0xFD,
    mem := fun a => if a = 0x10 then 2 else 0, cycles := 0 }

/-- The status transform of `update_zero_and_negative_flags`, used to state
intermediate characterizations compactly. -/
def znS (s r : Nat) : Nat :=
  if r >>> 7 = 1 then
    insertFlag (if r = 0 then insertFlag s ZERO else removeFlag s ZERO) NEGATIVE
  else
    removeFlag (if r = 0 then insertFlag s ZERO else removeFlag s ZERO) NEGATIVE

/-- A concrete state for evaluating the NMI service routine:
PC=$1234, P=$24 (I=1, U=1), SP=$FD, zeroed RAM. -/
def nmiCpu : CPU :=
  { register_a := 0, register_x := 0, register_y := 0, status := 0x24,
    program_counter := 0x1234, stack_pointer := 0xFD, mem := fun _ => 0, cycles := 0 }

/-- `OpCode` (src/opcodes.rs lines 4-10). -/
structure OpCode where
  code : Nat
  mnemonic : String
  len : Nat
  cycles : Nat
  mode : AddressingMode

/-- `OPCODES_MAP` (src/opcodes.rs lines 24-99): every entry of the table in the
provided source.  Modelled from the spec: the entries for DEX ($CA) and DEY
($88) — the spec's §4.3 instruction list and §8 trace scenario require them
(1-byte implied instructions), but the provided src/opcodes.rs stops short of
them.  Any opcode byte outside the table aborts execution, mirroring the
`expect` panic in `run_with_callback`. -/
def opcodeFor? (code : Nat) : Option OpCode :=
  match code with
  | 0x00 => some ⟨0x00, "BRK", 1, 7, AddressingMode.NoneAddressing⟩
  | 0xea => some ⟨0xea, "NOP", 1, 2, AddressingMode.NoneAddressing⟩
  | 0xe8 => some ⟨0xe8, "INX", 1, 2, AddressingMode.NoneAddressing⟩
  | 0xa9 => some ⟨0xa9, "LDA", 2, 2, AddressingMode.Immediate⟩
  | 0xa5 => some ⟨0xa5, "LDA", 2, 3, AddressingMode.ZeroPage⟩
  | 0xb5 => some ⟨0xb5, "LDA", 2, 4, AddressingMode.ZeroPage_X⟩
  | 0xad => some ⟨0xad, "LDA", 3, 4, AddressingMode.Absolute⟩
  | 0xbd => some ⟨0xbd, "LDA", 3, 4, AddressingMode.Absolute_X⟩
  | 0xb9 => some ⟨0xb9, "LDA", 3, 4, AddressingMode.Absolute_Y⟩
  | 0xa1 => some ⟨0xa1, "LDA", 2, 6, AddressingMode.Indirect_X⟩
  | 0xb1 => some ⟨0xb1, "LDA", 2, 5, AddressingMode.Indirect_Y⟩
  | 0xa2 => some ⟨0xa2, "LDX", 2, 2, AddressingMode.Immediate⟩
  | 0xa6 => some ⟨0xa6, "LDX", 2, 3, AddressingMode.ZeroPage⟩
  | 0xb6 => some ⟨0xb6, "LDX", 2, 4, AddressingMode.ZeroPage_Y⟩
  | 0xae => some ⟨0xae, "LDX", 3, 4, AddressingMode.Absolute⟩
  | 0xbe => some ⟨0xbe, "LDX", 3, 4, AddressingMode.Absolute_Y⟩
  | 0xa0 => some ⟨0xa0, "LDY", 2, 2, AddressingMode.Immediate⟩
  | 0xa4 => some ⟨0xa4, "LDY", 2, 3, AddressingMode.ZeroPage⟩
  | 0xb4 => some ⟨0xb4, "LDY", 2, 4, AddressingMode.ZeroPage_X⟩
  | 0xac => some ⟨0xac, "LDY", 3, 4, AddressingMode.Absolute⟩
  | 0xbc => some ⟨0xbc, "LDY", 3, 4, AddressingMode.Absolute_X⟩
  | 0x85 => some ⟨0x85, "STA", 2, 3, AddressingMode.ZeroPage⟩
  | 0x95 => some ⟨0x95, "STA", 2, 4, AddressingMode.ZeroPage_X⟩
  | 0x8d => some ⟨0x8d, "STA", 3, 4, AddressingMode.Absolute⟩
  | 0x9d => some ⟨0x9d, "STA", 3, 5, AddressingMode.Absolute_X⟩
  | 0x99 => some ⟨0x99, "STA", 3, 5, AddressingMode.Absolute_Y⟩
  | 0x81 => some ⟨0x81, "STA", 2, 6, AddressingMode.Indirect_X⟩
  | 0x91 => some ⟨0x91, "STA", 2, 6, AddressingMode.Indirect_Y⟩
  | 0x86 => some ⟨0x86, "STX", 2, 3, AddressingMode.ZeroPage⟩
  | 0x96 => some ⟨0x96, "STX", 2, 4, AddressingMode.ZeroPage_Y⟩
  | 0x8e => some ⟨0x8e, "STX", 3, 4, AddressingMode.Absolute⟩
  | 0x84 => some ⟨0x84, "STY", 2, 3, AddressingMode.ZeroPage⟩
  | 0x94 => some ⟨0x94, "STY", 2, 4, AddressingMode.ZeroPage_X⟩
  | 0x8c => some ⟨0x8c, "STY", 3, 4, AddressingMode.Absolute⟩
  | 0xaa => some ⟨0xaa, "TAX", 1, 2, AddressingMode.NoneAddressing⟩
  | 0xa8 => some ⟨0xa8, "TAY", 1, 2, AddressingMode.NoneAddressing⟩
  | 0xba => some ⟨0xba, "TSX", 1, 2, AddressingMode.NoneAddressing⟩
  | 0x8a => some ⟨0x8a, "TXA", 1, 2, AddressingMode.NoneAddressing⟩
  | 0x9a => some ⟨0x9a, "TXS", 1, 2, AddressingMode.NoneAddressing⟩
  | 0x98 => some ⟨0x98, "TYA", 1, 2, AddressingMode.NoneAddressing⟩
  | 0x48 => some ⟨0x48, "PHA", 1, 3, AddressingMode.NoneAddressing⟩
  | 0x68 => some ⟨0x68, "PLA", 1, 4, AddressingMode.NoneAddressing⟩
  | 0x08 => some ⟨0x08, "PHP", 1, 3, AddressingMode.NoneAddressing⟩
  | 0x28 => some ⟨0x28, "PLP", 1, 4, AddressingMode.NoneAddressing⟩
  | 0xd8 => some ⟨0xd8, "CLD", 1, 2, AddressingMode.NoneAddressing⟩
  | 0x58 => some ⟨0x58, "CLI", 1, 2, AddressingMode.NoneAddressing⟩
  | 0xb8 => some ⟨0xb8, "CLV", 1, 2, AddressingMode.NoneAddressing⟩
  | 0x18 => some ⟨0x18, "CLC", 1, 2, AddressingMode.NoneAddressing⟩
  | 0x38 => some ⟨0x38, "SEC", 1, 2, AddressingMode.NoneAddressing⟩
  | 0x78 => some ⟨0x78, "SEI", 1, 2, AddressingMode.NoneAddressing⟩
  | 0xf8 => some ⟨0xf8, "SED", 1, 2, AddressingMode.NoneAddressing⟩
  | 0xca => some ⟨0xca, "DEX", 1, 2, AddressingMode.NoneAddressing⟩
  | 0x88 => some ⟨0x88, "DEY", 1, 2, AddressingMode.NoneAddressing⟩
  | _ => none

/-- Hex digit character, lowercase, as produced by Rust `{:x}` formatting. -/
def hexDigit (n : Nat) : Char := Char.ofNat (if n < 10 then 48 + n else 87 + n)

/-- Digits of `n` base 16, least significant first; `n` below `16^fuel`. -/
def hexDigitsRev : Nat → Nat → List Char
  | 0, _ => []
  | fuel + 1, n => if n = 0 then [] else hexDigit (n % 16) :: hexDigitsRev fuel (n / 16)

/-- Rust `{:0wx}` formatting: lowercase hex, left-padded with zeros to a
minimum width `w` (wider values keep all their digits). -/
def hexPad (w n : Nat) : String :=
  let ds := (hexDigitsRev 16 n).reverse
  String.mk (List.replicate (w - ds.length) (Char.ofNat 48) ++ ds)

/-- Rust `{:w}` formatting of a string: left-aligned, space-padded to `w`. -/
def padRightTo (s : String) (w : Nat) : String :=
  s ++ String.mk (List.replicate (w - s.length) (Char.ofNat 32))

/-- Rust `{:>w}` formatting of a string: right-aligned, space-padded to `w`. -/
def padLeftTo (s : String) (w : Nat) : String :=
  String.mk (List.replicate (w - s.length) (Char.ofNat 32)) ++ s

def dropLeadingSpaces : List Char → List Char
  | [] => []
  | ch :: t => if ch = Char.ofNat 32 then dropLeadingSpaces t else ch :: t

/-- Rust `str::trim` for the ASCII-space-only strings the tracer builds. -/
def trimAscii (s : String) : String :=
  String.mk ((dropLeadingSpaces (dropLeadingSpaces s.toList).reverse).reverse)

/-- Rust `str::to_ascii_uppercase`. -/
def upperAscii (s : String) : String :=
  String.mk (s.toList.map (fun ch =>
    if 97 ≤ ch.toNat ∧ ch.toNat ≤ 122 then Char.ofNat (ch.toNat - 32) else ch))

/-- `Vec::join(" ")` for the hex dump. -/
def joinSpace : List String → String
  | [] => ""
  | [x] => x
  | x :: rest => x ++ " " ++ joinSpace rest

/-- `trace` (src/trace.rs lines 5-128).  Returns `none` where the Rust
`unwrap` on the opcode lookup would panic. -/
def trace (c : CPU) : Option String :=
  let code := c.mem_read c.program_counter
  match opcodeFor? code with
  | none => none
  | some op =>
    let counter := c.program_counter
    let pair : Nat × Nat :=
      match op.mode with
      | AddressingMode.Immediate | AddressingMode.NoneAddressing => (0, 0)
      | _ =>
        let (addr, _) := c.get_absolute_address op.mode ((counter + 1) % 65536)
        (addr, c.mem_read addr)
    let mem_addr := pair.1
    let data := pair.2
    let dumpAndText : List Nat × String :=
      match op.len with
      | 1 =>
        ([code],
         if code = 0x0a ∨ code = 0x4a ∨ code = 0x2a ∨ code = 0x6a then "A " else "")
      | 2 =>
        let address := c.mem_read ((counter + 1) % 65536)
        ([code, address],
         match op.mode with
         | AddressingMode.Immediate => "#$" ++ hexPad 2 address
         | AddressingMode.ZeroPage => "$" ++ hexPad 2 mem_addr ++ " = " ++ hexPad 2 data
         | AddressingMode.ZeroPage_X =>
             "$" ++ hexPad 2 address ++ ",X @ " ++ hexPad 2 mem_addr ++ " = " ++ hexPad 2 data
         | AddressingMode.ZeroPage_Y =>
             "$" ++ hexPad 2 address ++ ",Y @ " ++ hexPad 2 mem_addr ++ " = " ++ hexPad 2 data
         | AddressingMode.Indirect_X =>
             "($" ++ hexPad 2 address ++ ",X) @ "
               ++ hexPad 2 ((address + c.register_x) % 256)
               ++ " = " ++ hexPad 4 mem_addr ++ " = " ++ hexPad 2 data
         | AddressingMode.Indirect_Y =>
             "($" ++ hexPad 2 address ++ "),Y = "
               ++ hexPad 4 ((mem_addr + 65536 - c.register_y % 65536) % 65536)
               ++ " @ " ++ hexPad 4 mem_addr ++ " = " ++ hexPad 2 data
         | AddressingMode.NoneAddressing =>
             let target := (counter + 2
               + (if address < 128 then address else 18446744073709551360 + address))
               % 18446744073709551616
             "$" ++ hexPad 4 target
         | _ => "")
      | 3 =>
        let lo := c.mem_read ((counter + 1) % 65536)
        let hi := c.mem_read ((counter + 2) % 65536)
        let address := c.mem_read_u16 ((counter + 1) % 65536)
        ([code, lo, hi],
         match op.mode with
         | AddressingMode.NoneAddressing =>
             if code = 0x6c then
               let jmp_addr := if address &&& 0x00FF = 0x00FF then
                   c.mem_read address + 256 * c.mem_read (address &&& 0xFF00)
                 else c.mem_read_u16 address
               "($" ++ hexPad 4 address ++ ") = " ++ hexPad 4 jmp_addr
             else "$" ++ hexPad 4 address
         | AddressingMode.Absolute => "$" ++ hexPad 4 mem_addr ++ " = " ++ hexPad 2 data
         | AddressingMode.Absolute_X =>
             "$" ++ hexPad 4 address ++ ",X @ " ++ hexPad 4 mem_addr ++ " = " ++ hexPad 2 data
         | AddressingMode.Absolute_Y =>
             "$" ++ hexPad 4 address ++ ",Y @ " ++ hexPad 4 mem_addr ++ " = " ++ hexPad 2 data
         | _ => "")
      | _ => ([code], "")
    let hex_str := joinSpace (dumpAndText.1.map (hexPad 2))
    let asm_str := trimAscii (hexPad 4 counter ++ "  " ++ padRightTo hex_str 8 ++ " "
        ++ padLeftTo op.mnemonic 4 ++ " " ++ dumpAndText.2)
    some (upperAscii (padRightTo asm_str 47 ++ " A:" ++ hexPad 2 c.register_a
        ++ " X:" ++ hexPad 2 c.register_x ++ " Y:" ++ hexPad 2 c.register_y
        ++ " P:" ++ hexPad 2 c.status ++ " SP:" ++ hexPad 2 c.stack_pointer))

/-- `ldx` dispatch for opcode $A2, `dex` for $CA, `dey` for $88: the only
instruction semantics the traced scenario executes.  Every other opcode
aborts the modelled run with `none` (the scenario never reaches one). -/
def execOp (c : CPU) (code : Nat) (mode : AddressingMode) : Option CPU :=
  match code with
  | 0xa2 => some (c.ldx mode)
  | 0xca => some c.dex
  | 0x88 => some c.dey
  | _ => none

/-- The `run_with_callback` loop (src/cpu.rs lines 768-994) with the trace
callback of `test_format_trace` (src/trace.rs lines 139-169), fuel-bounded.
Modelled from the spec: the bus never latches an NMI during this short run,
so the NMI poll at the top of the loop does nothing. -/
def runTrace : Nat → CPU → List String → Option (List String)
  | 0, _, _ => none
  | fuel + 1, c, acc =>
    match trace c with
    | none => none
    | some line =>
      let acc := acc ++ [line]
      let code := c.mem_read c.program_counter
      let c := { c with program_counter := (c.program_counter + 1) % 65536 }
      match opcodeFor? code with
      | none => none
      | some op =>
        let pcState := c.program_counter
        if code = 0 then some acc
        else
          match execOp c code op.mode with
          | none => none
          | some c2 =>
            let c3 := c2.tick op.cycles
            let c4 := if pcState = c3.program_counter
                      then { c3 with
                              program_counter := (c3.program_counter + (op.len - 1)) % 65536 }
                      else c3
            runTrace fuel c4 acc

/-- The initial state of the `test_format_trace` scenario: bytes
`A2 01 CA 88 00` at $0064, PC=$0064, A=1, X=2, Y=3, P=$24, SP=$FD. -/
def traceCpu : CPU :=
  { register_a := 1, register_x := 2, register_y := 3, status := 0x24,
    program_counter := 0x64, stack_pointer := 0xFD,
    mem := fun a => if a = 100 then 0xa2 else if a = 101 then 0x01
           else if a = 102 then 0xca else if a = 103 then 0x88 else 0,
    cycles := 0 }

/-! ## Lemmas and claim theorems -/

lemma containsFlag_testBit (s : Nat) : ∀ i, containsFlag s (2^i) = s.testBit i := by
  intro i
  unfold containsFlag
  rw [Nat.and_two_pow]
  cases h : s.testBit i <;> simp [h]

lemma containsFlag_CARRY (s : Nat) : containsFlag s CARRY = s.testBit 0 :=
  containsFlag_testBit s 0

lemma containsFlag_ZERO (s : Nat) : containsFlag s ZERO = s.testBit 1 :=
  containsFlag_testBit s 1

lemma containsFlag_INTERRUPT_DISABLE (s : Nat) :
    containsFlag s INTERRUPT_DISABLE = s.testBit 2 :=
  containsFlag_testBit s 2

lemma containsFlag_DECIMAL_MODE (s : Nat) : containsFlag s DECIMAL_MODE = s.testBit 3 :=
  containsFlag_testBit s 3

lemma containsFlag_BREAK (s : Nat) : containsFlag s BREAK = s.testBit 4 :=
  containsFlag_testBit s 4

lemma containsFlag_BREAK2 (s : Nat) : containsFlag s BREAK2 = s.testBit 5 :=
  containsFlag_testBit s 5

lemma containsFlag_OVERFLOW (s : Nat) : containsFlag s OVERFLOW = s.testBit 6 :=
  containsFlag_testBit s 6

lemma containsFlag_NEGATIVE (s : Nat) : containsFlag s NEGATIVE = s.testBit 7 :=
  containsFlag_testBit s 7

lemma testBit_insertFlag (s f i : Nat) :
    (insertFlag s f).testBit i = (s.testBit i || f.testBit i) :=
  Nat.testBit_lor s f i

lemma testBit_removeFlag (s f i : Nat) :
    (removeFlag s f).testBit i = (s.testBit i && (decide (i < 8) ^^ f.testBit i)) := by
  unfold removeFlag
  rw [Nat.testBit_land, Nat.testBit_xor, show (255:Nat) = 2^8-1 from rfl,
    Nat.testBit_two_pow_sub_one]

lemma maskBits :
    (Nat.testBit CARRY 0 = true) ∧
    (Nat.testBit CARRY 1 = false) ∧
    (Nat.testBit CARRY 2 = false) ∧
    (Nat.testBit CARRY 3 = false) ∧
    (Nat.testBit CARRY 4 = false) ∧
    (Nat.testBit CARRY 5 = false) ∧
    (Nat.testBit CARRY 6 = false) ∧
    (Nat.testBit CARRY 7 = false) ∧
    (Nat.testBit ZERO 0 = false) ∧
    (Nat.testBit ZERO 1 = true) ∧
    (Nat.testBit ZERO 2 = false) ∧
    (Nat.testBit ZERO 3 = false) ∧
    (Nat.testBit ZERO 4 = false) ∧
    (Nat.testBit ZERO 5 = false) ∧
    (Nat.testBit ZERO 6 = false) ∧
    (Nat.testBit ZERO 7 = false) ∧
    (Nat.testBit INTERRUPT_DISABLE 0 = false) ∧
    (Nat.testBit INTERRUPT_DISABLE 1 = false) ∧
    (Nat.testBit INTERRUPT_DISABLE 2 = true) ∧
    (Nat.testBit INTERRUPT_DISABLE 3 = false) ∧
    (Nat.testBit INTERRUPT_DISABLE 4 = false) ∧
    (Nat.testBit INTERRUPT_DISABLE 5 = false) ∧
    (Nat.testBit INTERRUPT_DISABLE 6 = false) ∧
    (Nat.testBit INTERRUPT_DISABLE 7 = false) ∧
    (Nat.testBit DECIMAL_MODE 0 = false) ∧
    (Nat.testBit DECIMAL_MODE 1 = false) ∧
    (Nat.testBit DECIMAL_MODE 2 = false) ∧
    (Nat.testBit DECIMAL_MODE 3 = true) ∧
    (Nat.testBit DECIMAL_MODE 4 = false) ∧
    (Nat.testBit DECIMAL_MODE 5 = false) ∧
    (Nat.testBit DECIMAL_MODE 6 = false) ∧
    (Nat.testBit DECIMAL_MODE 7 = false) ∧
    (Nat.testBit BREAK 0 = false) ∧
    (Nat.testBit BREAK 1 = false) ∧
    (Nat.testBit BREAK 2 = false) ∧
    (Nat.testBit BREAK 3 = false) ∧
    (Nat.testBit BREAK 4 = true) ∧
    (Nat.testBit BREAK 5 = false) ∧
    (Nat.testBit BREAK 6 = false) ∧
    (Nat.testBit BREAK 7 = false) ∧
    (Nat.testBit BREAK2 0 = false) ∧
    (Nat.testBit BREAK2 1 = false) ∧
    (Nat.testBit BREAK2 2 = false) ∧
    (Nat.testBit BREAK2 3 = false) ∧
    (Nat.testBit BREAK2 4 = false) ∧
    (Nat.testBit BREAK2 5 = true) ∧
    (Nat.testBit BREAK2 6 = false) ∧
    (Nat.testBit BREAK2 7 = false) ∧
    (Nat.testBit OVERFLOW 0 = false) ∧
    (Nat.testBit OVERFLOW 1 = false) ∧
    (Nat.testBit OVERFLOW 2 = false) ∧
    (Nat.testBit OVERFLOW 3 = false) ∧
    (Nat.testBit OVERFLOW 4 = false) ∧
    (Nat.testBit OVERFLOW 5 = false) ∧
    (Nat.testBit OVERFLOW 6 = true) ∧
    (Nat.testBit OVERFLOW 7 = false) ∧
    (Nat.testBit NEGATIVE 0 = false) ∧
    (Nat.testBit NEGATIVE 1 = false) ∧
    (Nat.testBit NEGATIVE 2 = false) ∧
    (Nat.testBit NEGATIVE 3 = false) ∧
    (Nat.testBit NEGATIVE 4 = false) ∧
    (Nat.testBit NEGATIVE 5 = false) ∧
    (Nat.testBit NEGATIVE 6 = false) ∧
    (Nat.testBit NEGATIVE 7 = true) := by
  decide

lemma decideBits :
    (decide ((0:Nat) < 8) = true) ∧ (decide ((1:Nat) < 8) = true) ∧
    (decide ((2:Nat) < 8) = true) ∧ (decide ((3:Nat) < 8) = true) ∧
    (decide ((4:Nat) < 8) = true) ∧ (decide ((5:Nat) < 8) = true) ∧
    (decide ((6:Nat) < 8) = true) ∧ (decide ((7:Nat) < 8) = true) := by
  decide

/-- Claim C1: for every initial accumulator A, operand byte M and carry-in C,
`add_to_register_a` (the ADC core) stores `(A + M + C) mod 256` in the
accumulator, sets CARRY iff `A + M + C ≥ 256`, sets OVERFLOW iff
`((M ^^^ result) &&& (result ^^^ A) &&& 0x80) ≠ 0`, and updates ZERO and
NEGATIVE from the stored result. -/
theorem adc_correct (c : CPU) (value : Nat)
    (ha : c.register_a < 256) (hv : value < 256) :
    (c.add_to_register_a value).register_a
        = (c.register_a + value + (if containsFlag c.status CARRY then 1 else 0)) % 256
    ∧ (containsFlag (c.add_to_register_a value).status CARRY = true ↔
        c.register_a + value + (if containsFlag c.status CARRY then 1 else 0) ≥ 256)
    ∧ (containsFlag (c.add_to_register_a value).status OVERFLOW = true ↔
        (value ^^^ (c.register_a + value + (if containsFlag c.status CARRY then 1 else 0)) % 256)
          &&& ((c.register_a + value + (if containsFlag c.status CARRY then 1 else 0)) % 256
            ^^^ c.register_a) &&& 0x80 ≠ 0)
    ∧ (containsFlag (c.add_to_register_a value).status ZERO = true ↔
        (c.register_a + value + (if containsFlag c.status CARRY then 1 else 0)) % 256 = 0)
    ∧ (containsFlag (c.add_to_register_a value).status NEGATIVE = true ↔
        ((c.register_a + value + (if containsFlag c.status CARRY then 1 else 0)) % 256).testBit 7)
    := by
  unfold CPU.add_to_register_a CPU.set_register_a CPU.update_zero_and_negative_flags
    CPU.update_negative_flag
  cases hc : containsFlag c.status CARRY
  all_goals simp only [hc, if_true, if_false, Bool.false_eq_true, Bool.true_eq_false]
  all_goals refine ⟨by trivial, ?_, ?_, ?_, ?_⟩
  all_goals simp only [containsFlag_CARRY, containsFlag_ZERO, containsFlag_OVERFLOW,
    containsFlag_NEGATIVE]
  all_goals split_ifs
  all_goals simp only [testBit_insertFlag, testBit_removeFlag, maskBits, decideBits,
    Bool.or_true, Bool.or_false, Bool.true_or, Bool.false_or, Bool.and_true,
    Bool.and_false, Bool.true_and, Bool.false_and, Bool.not_true, Bool.not_false,
    Bool.xor_false, Bool.xor_true, Bool.false_eq_true, false_iff, true_iff,
    decide_eq_true_eq]
  all_goals try omega
  all_goals simp only [Nat.testBit_to_div_mod, Nat.shiftRight_eq_div_pow,
    decide_eq_true_eq] at *
  all_goals omega

/-- Witness for C1 at A=$10, M=$90, C=0. -/
theorem adc_correct_witness :
    sampleCpu.register_a < 256 ∧ (0x90:Nat) < 256 ∧
    ((sampleCpu.add_to_register_a 0x90).register_a
        = (sampleCpu.register_a + 0x90
            + (if containsFlag sampleCpu.status CARRY then 1 else 0)) % 256
    ∧ (containsFlag (sampleCpu.add_to_register_a 0x90).status CARRY = true ↔
        sampleCpu.register_a + 0x90
          + (if containsFlag sampleCpu.status CARRY then 1 else 0) ≥ 256)
    ∧ (containsFlag (sampleCpu.add_to_register_a 0x90).status OVERFLOW = true ↔
        (0x90 ^^^ (sampleCpu.register_a + 0x90
            + (if containsFlag sampleCpu.status CARRY then 1 else 0)) % 256)
          &&& ((sampleCpu.register_a + 0x90
            + (if containsFlag sampleCpu.status CARRY then 1 else 0)) % 256
            ^^^ sampleCpu.register_a) &&& 0x80 ≠ 0)
    ∧ (containsFlag (sampleCpu.add_to_register_a 0x90).status ZERO = true ↔
        (sampleCpu.register_a + 0x90
          + (if containsFlag sampleCpu.status CARRY then 1 else 0)) % 256 = 0)
    ∧ (containsFlag (sampleCpu.add_to_register_a 0x90).status NEGATIVE = true ↔
        ((sampleCpu.register_a + 0x90
          + (if containsFlag sampleCpu.status CARRY then 1 else 0)) % 256).testBit 7)) :=
  ⟨by decide, by decide, adc_correct sampleCpu 0x90 (by decide) (by decide)⟩

lemma mem_read_lt (c : CPU) (a : Nat) : c.mem_read a < 256 := Nat.mod_lt _ (by norm_num)

lemma shiftLeft8_lor (hi lo : Nat) (h : lo < 256) : hi <<< 8 ||| lo = hi * 256 + lo := by
  apply Nat.eq_of_testBit_eq
  intro i
  rw [Nat.testBit_lor, Nat.testBit_shiftLeft]
  rcases Nat.lt_or_ge i 8 with hlt | hge
  · have hd : decide (i ≥ 8) = false := decide_eq_false (by omega)
    rw [hd, Bool.false_and, Bool.false_or]
    have hsplit : hi * 256 + lo = 2 ^ i * (hi * 2 ^ (8 - i)) + lo := by
      have hp : (2:Nat) ^ i * 2 ^ (8 - i) = 256 := by
        rw [← pow_add, show i + (8 - i) = 8 by omega]
        norm_num
      calc hi * 256 + lo = 2 ^ i * 2 ^ (8 - i) * hi + lo := by rw [hp]; ring
        _ = 2 ^ i * (hi * 2 ^ (8 - i)) + lo := by ring
    rw [hsplit, Nat.testBit_to_div_mod, Nat.testBit_to_div_mod,
      Nat.mul_add_div (Nat.pos_pow_of_pos i (by norm_num)), decide_eq_decide]
    have heven : hi * 2 ^ (8 - i) % 2 = 0 := by
      rw [show 8 - i = (7 - i) + 1 by omega, pow_succ, ← Nat.mul_assoc]
      exact Nat.mul_mod_left _ 2
    omega
  · have hd : decide (i ≥ 8) = true := decide_eq_true hge
    rw [hd, Bool.true_and]
    have hlo : lo.testBit i = false := by
      apply Nat.testBit_lt_two_pow
      calc lo < 256 := h
        _ = 2 ^ 8 := by norm_num
        _ ≤ 2 ^ i := Nat.pow_le_pow_right (by norm_num) hge
    rw [hlo, Bool.or_false]
    rw [Nat.testBit_to_div_mod, Nat.testBit_to_div_mod, decide_eq_decide,
      show (2:Nat) ^ i = 256 * 2 ^ (i - 8) by
        rw [show (256:Nat) = 2 ^ 8 from by norm_num, ← pow_add,
          show 8 + (i - 8) = i by omega],
      ← Nat.div_div_eq_div_mul, show (hi * 256 + lo) / 256 = hi by omega]

lemma sbc_operand_not : ∀ v < 256, sbc_operand v = 255 ^^^ v := by decide

/-- Claim C3: for every CPU state and operand address, executing the SBC core
on the operand byte M leaves the CPU in exactly the state produced by the ADC
core applied to `(~M) &&& 0xFF = 255 ^^^ M`. -/
theorem sbc_eq_adc_not (c : CPU) (addr : Nat) :
    c.sbc_at addr = c.add_to_register_a (255 ^^^ c.mem_read addr) := by
  show c.add_to_register_a (sbc_operand (c.mem_read addr))
      = c.add_to_register_a (255 ^^^ c.mem_read addr)
  rw [sbc_operand_not _ (mem_read_lt c addr)]

/-- Claim C4: for every register value `reg` and operand byte M, the compare
core sets CARRY iff `reg ≥ M` (the code's predicate `M ≤ reg` is the same
proposition), updates ZERO and NEGATIVE from `(reg - M) mod 256`, and leaves
the A, X and Y registers unchanged. -/
theorem compare_correct (c : CPU) (addr : Nat) (reg : Nat) (pg : Bool) :
    (containsFlag (c.compare_at addr reg pg).status CARRY = true ↔ reg ≥ c.mem_read addr)
    ∧ (containsFlag (c.compare_at addr reg pg).status ZERO = true ↔
        (reg + 256 - c.mem_read addr) % 256 = 0)
    ∧ (containsFlag (c.compare_at addr reg pg).status NEGATIVE = true ↔
        ((reg + 256 - c.mem_read addr) % 256).testBit 7)
    ∧ (c.compare_at addr reg pg).register_a = c.register_a
    ∧ (c.compare_at addr reg pg).register_x = c.register_x
    ∧ (c.compare_at addr reg pg).register_y = c.register_y := by
  unfold CPU.compare_at CPU.update_zero_and_negative_flags CPU.update_negative_flag CPU.tick
  cases pg
  all_goals refine ⟨?_, ?_, ?_, rfl, rfl, rfl⟩
  all_goals simp only [containsFlag_CARRY, containsFlag_ZERO, containsFlag_NEGATIVE]
  all_goals split_ifs
  all_goals simp only [testBit_insertFlag, testBit_removeFlag, maskBits, decideBits,
    Bool.or_true, Bool.or_false, Bool.true_or, Bool.false_or, Bool.and_true,
    Bool.and_false, Bool.true_and, Bool.false_and, Bool.not_true, Bool.not_false,
    Bool.xor_false, Bool.xor_true, Bool.false_eq_true, false_iff, true_iff,
    decide_eq_true_eq]
  all_goals try omega
  all_goals simp only [Nat.testBit_to_div_mod, Nat.shiftRight_eq_div_pow,
    decide_eq_true_eq] at *
  all_goals omega

/-- Claim C10: the AXS core sets X to `((X &&& Y) - M) mod 256` (the
conjunction is of X with Y, not of A with X), sets CARRY iff `M ≤ new X`,
updates ZERO and NEGATIVE from the new X, and leaves A unchanged. -/
theorem axs_correct (c : CPU) (addr : Nat) :
    (c.axs_at addr).register_x
        = ((c.register_x &&& c.register_y) + 256 - c.mem_read addr) % 256
    ∧ (containsFlag (c.axs_at addr).status CARRY = true ↔
        c.mem_read addr ≤ ((c.register_x &&& c.register_y) + 256 - c.mem_read addr) % 256)
    ∧ (containsFlag (c.axs_at addr).status ZERO = true ↔
        ((c.register_x &&& c.register_y) + 256 - c.mem_read addr) % 256 = 0)
    ∧ (containsFlag (c.axs_at addr).status NEGATIVE = true ↔
        (((c.register_x &&& c.register_y) + 256 - c.mem_read addr) % 256).testBit 7)
    ∧ (c.axs_at addr).register_a = c.register_a := by
  unfold CPU.axs_at CPU.update_zero_and_negative_flags CPU.update_negative_flag
  refine ⟨rfl, ?_, ?_, ?_, rfl⟩
  all_goals simp only [containsFlag_CARRY, containsFlag_ZERO, containsFlag_NEGATIVE]
  all_goals split_ifs
  all_goals simp only [testBit_insertFlag, testBit_removeFlag, maskBits, decideBits,
    Bool.or_true, Bool.or_false, Bool.true_or, Bool.false_or, Bool.and_true,
    Bool.and_false, Bool.true_and, Bool.false_and, Bool.not_true, Bool.not_false,
    Bool.xor_false, Bool.xor_true, Bool.false_eq_true, false_iff, true_iff,
    decide_eq_true_eq]
  all_goals try omega
  all_goals simp only [Nat.testBit_to_div_mod, Nat.shiftRight_eq_div_pow,
    decide_eq_true_eq] at *
  all_goals omega

/-- Claim C7: for every zero-page pointer byte (including $FF) and register
values, (Indirect,X) reads the effective-address low byte from
`(operand + X) mod 256` and the high byte from `(operand + X + 1) mod 256`,
and (Indirect),Y reads the low byte from `operand` and the high byte from
`(operand + 1) mod 256`, adding Y in 16-bit space afterwards; the high-byte
fetch never leaves the zero page. -/
theorem indirect_wrap_correct (c : CPU) (addr : Nat) :
    (c.get_absolute_address AddressingMode.Indirect_X addr
      = (c.mem_read (((c.mem_read addr + c.register_x) % 256 + 1) % 256) * 256
          + c.mem_read ((c.mem_read addr + c.register_x) % 256), false))
    ∧ (c.get_absolute_address AddressingMode.Indirect_Y addr
      = ((c.mem_read ((c.mem_read addr + 1) % 256) * 256 + c.mem_read (c.mem_read addr)
            + c.register_y) % 65536,
         page_cross
           (c.mem_read ((c.mem_read addr + 1) % 256) * 256 + c.mem_read (c.mem_read addr))
           ((c.mem_read ((c.mem_read addr + 1) % 256) * 256 + c.mem_read (c.mem_read addr)
            + c.register_y) % 65536))) := by
  constructor
  · show (c.mem_read (((c.mem_read addr + c.register_x) % 256 + 1) % 256) <<< 8
        ||| c.mem_read ((c.mem_read addr + c.register_x) % 256), false) = _
    rw [shiftLeft8_lor _ _ (mem_read_lt c _)]
  · show (((c.mem_read ((c.mem_read addr + 1) % 256) <<< 8 ||| c.mem_read (c.mem_read addr))
            + c.register_y) % 65536,
         page_cross
           (c.mem_read ((c.mem_read addr + 1) % 256) <<< 8 ||| c.mem_read (c.mem_read addr))
           (((c.mem_read ((c.mem_read addr + 1) % 256) <<< 8 ||| c.mem_read (c.mem_read addr))
            + c.register_y) % 65536)) = _
    rw [shiftLeft8_lor _ _ (mem_read_lt c _)]

lemma lor48_mod : ∀ s < 256, (s ||| 48) % 256 = s ||| 48 := by decide

/-- Claim C6: the byte pushed by PHP has both B (bit 4) and U (bit 5) set,
and executing PHP followed by PLP yields a status equal to the original P on
every flag except that B is forced to 0 and U is forced to 1. -/
theorem php_plp_correct (c : CPU) (hs : c.status < 256) (hsp : c.stack_pointer < 256) :
    (containsFlag ((c.php).mem_read (STACK + c.stack_pointer)) BREAK = true)
    ∧ (containsFlag ((c.php).mem_read (STACK + c.stack_pointer)) BREAK2 = true)
    ∧ (containsFlag ((c.php).plp).status BREAK = false)
    ∧ (containsFlag ((c.php).plp).status BREAK2 = true)
    ∧ (containsFlag ((c.php).plp).status CARRY = containsFlag c.status CARRY)
    ∧ (containsFlag ((c.php).plp).status ZERO = containsFlag c.status ZERO)
    ∧ (containsFlag ((c.php).plp).status INTERRUPT_DISABLE
        = containsFlag c.status INTERRUPT_DISABLE)
    ∧ (containsFlag ((c.php).plp).status DECIMAL_MODE = containsFlag c.status DECIMAL_MODE)
    ∧ (containsFlag ((c.php).plp).status OVERFLOW = containsFlag c.status OVERFLOW)
    ∧ (containsFlag ((c.php).plp).status NEGATIVE = containsFlag c.status NEGATIVE) := by
  have haddr : (STACK + c.stack_pointer) % 65536 = STACK + c.stack_pointer :=
    Nat.mod_eq_of_lt (by unfold STACK at *; omega)
  have hsp2 : ((c.stack_pointer + 255) % 256 + 1) % 256 = c.stack_pointer := by omega
  have hflags : insertFlag (insertFlag c.status BREAK) BREAK2 = c.status ||| 48 := by
    unfold insertFlag BREAK BREAK2
    rw [Nat.lor_assoc, show (16:Nat) ||| 32 = 48 from by decide]
  have hpush : (c.php).mem_read (STACK + c.stack_pointer) = c.status ||| 48 := by
    unfold CPU.php CPU.stack_push CPU.mem_write CPU.mem_read
    simp only [hflags, haddr, if_pos rfl, if_true]
    rw [Nat.mod_mod_of_dvd _ (dvd_refl 256), lor48_mod _ hs]
  have hplp : ((c.php).plp).status = insertFlag (removeFlag (c.status ||| 48) BREAK) BREAK2 := by
    unfold CPU.plp CPU.stack_pop
    simp only
    congr 1
    unfold CPU.php CPU.stack_push CPU.mem_write CPU.mem_read
    simp only [hsp2, haddr, if_pos rfl, if_true, hflags]
    rw [Nat.mod_mod_of_dvd _ (dvd_refl 256), lor48_mod _ hs]
  rw [hpush, hplp]
  have h48 : (48:Nat) = BREAK ||| BREAK2 := by decide
  rw [h48]
  simp only [containsFlag_CARRY, containsFlag_ZERO, containsFlag_INTERRUPT_DISABLE,
    containsFlag_DECIMAL_MODE, containsFlag_BREAK, containsFlag_BREAK2,
    containsFlag_OVERFLOW, containsFlag_NEGATIVE]
  simp only [testBit_insertFlag, testBit_removeFlag, Nat.testBit_lor, maskBits, decideBits,
    Bool.or_true, Bool.or_false, Bool.true_or, Bool.false_or, Bool.and_true,
    Bool.and_false, Bool.true_and, Bool.false_and, Bool.not_true, Bool.not_false,
    Bool.xor_false, Bool.xor_true]
  simp

/-- Witness for C6 at P=$24, SP=$FD. -/
theorem php_plp_correct_witness :
    sampleCpu.status < 256 ∧ sampleCpu.stack_pointer < 256 ∧
    ((containsFlag ((sampleCpu.php).mem_read (STACK + sampleCpu.stack_pointer)) BREAK = true)
    ∧ (containsFlag ((sampleCpu.php).mem_read (STACK + sampleCpu.stack_pointer)) BREAK2 = true)
    ∧ (containsFlag ((sampleCpu.php).plp).status BREAK = false)
    ∧ (containsFlag ((sampleCpu.php).plp).status BREAK2 = true)
    ∧ (containsFlag ((sampleCpu.php).plp).status CARRY = containsFlag sampleCpu.status CARRY)
    ∧ (containsFlag ((sampleCpu.php).plp).status ZERO = containsFlag sampleCpu.status ZERO)
    ∧ (containsFlag ((sampleCpu.php).plp).status INTERRUPT_DISABLE
        = containsFlag sampleCpu.status INTERRUPT_DISABLE)
    ∧ (containsFlag ((sampleCpu.php).plp).status DECIMAL_MODE
        = containsFlag sampleCpu.status DECIMAL_MODE)
    ∧ (containsFlag ((sampleCpu.php).plp).status OVERFLOW
        = containsFlag sampleCpu.status OVERFLOW)
    ∧ (containsFlag ((sampleCpu.php).plp).status NEGATIVE
        = containsFlag sampleCpu.status NEGATIVE)) :=
  ⟨by decide, by decide, php_plp_correct sampleCpu (by decide) (by decide)⟩

lemma rolror_tbl : ∀ d < 256,
    (d <<< 1) = d * 2 ∧
    (d >>> 1) = d / 2 ∧
    (d * 2 % 256 ||| 1) = d * 2 % 256 + 1 ∧
    (d / 2 ||| 128) = d / 2 + 128 ∧
    (d * 2 % 256) % 256 = d * 2 % 256 ∧
    (d * 2 % 256 + 1) % 256 = d * 2 % 256 + 1 ∧
    (d / 2) % 256 = d / 2 ∧
    (d / 2 + 128) % 256 = d / 2 + 128 := by
  decide

/-- Claim C8: the memory (read-modify-write) forms of ROL and ROR store the
rotated value, set CARRY from the bit shifted out, update only NEGATIVE from
the stored value and leave ZERO unchanged; the accumulator forms update both
ZERO and NEGATIVE from the result. -/
theorem rol_ror_flags_correct (c : CPU) (addr : Nat) (ha : c.register_a < 256) :
    (((c.rol_at addr).1).mem_read addr
        = c.mem_read addr * 2 % 256 + (if containsFlag c.status CARRY then 1 else 0))
    ∧ (containsFlag ((c.rol_at addr).1).status CARRY = true ↔ (c.mem_read addr).testBit 7)
    ∧ (containsFlag ((c.rol_at addr).1).status ZERO = containsFlag c.status ZERO)
    ∧ (containsFlag ((c.rol_at addr).1).status NEGATIVE = true ↔
        (c.mem_read addr * 2 % 256 + (if containsFlag c.status CARRY then 1 else 0)).testBit 7)
    ∧ (((c.ror_at addr).1).mem_read addr
        = c.mem_read addr / 2 + (if containsFlag c.status CARRY then 128 else 0))
    ∧ (containsFlag ((c.ror_at addr).1).status CARRY = true ↔ (c.mem_read addr).testBit 0)
    ∧ (containsFlag ((c.ror_at addr).1).status ZERO = containsFlag c.status ZERO)
    ∧ (containsFlag ((c.ror_at addr).1).status NEGATIVE = true ↔
        (c.mem_read addr / 2 + (if containsFlag c.status CARRY then 128 else 0)).testBit 7)
    ∧ ((c.rol_acc).register_a
        = c.register_a * 2 % 256 + (if containsFlag c.status CARRY then 1 else 0))
    ∧ (containsFlag (c.rol_acc).status CARRY = true ↔ c.register_a.testBit 7)
    ∧ (containsFlag (c.rol_acc).status ZERO = true ↔
        c.register_a * 2 % 256 + (if containsFlag c.status CARRY then 1 else 0) = 0)
    ∧ (containsFlag (c.rol_acc).status NEGATIVE = true ↔
        (c.register_a * 2 % 256 + (if containsFlag c.status CARRY then 1 else 0)).testBit 7)
    ∧ ((c.ror_acc).register_a
        = c.register_a / 2 + (if containsFlag c.status CARRY then 128 else 0))
    ∧ (containsFlag (c.ror_acc).status CARRY = true ↔ c.register_a.testBit 0)
    ∧ (containsFlag (c.ror_acc).status ZERO = true ↔
        c.register_a / 2 + (if containsFlag c.status CARRY then 128 else 0) = 0)
    ∧ (containsFlag (c.ror_acc).status NEGATIVE = true ↔
        (c.register_a / 2 + (if containsFlag c.status CARRY then 128 else 0)).testBit 7) := by
  have hd := mem_read_lt c addr
  obtain ⟨m1, m2, m3, m4, m5, m6, m7, m8⟩ := rolror_tbl _ hd
  obtain ⟨a1, a2, a3, a4, a5, a6, a7, a8⟩ := rolror_tbl _ ha
  unfold CPU.rol_at CPU.ror_at CPU.rol_acc CPU.ror_acc CPU.set_register_a
    CPU.update_zero_and_negative_flags CPU.update_negative_flag CPU.mem_write CPU.mem_read
  cases hc : containsFlag c.status CARRY
  all_goals simp only [hc, if_true, if_false, if_pos rfl, Bool.false_eq_true,
    Bool.true_eq_false]
  all_goals rw [show (c.mem (addr % 65536) % 256) = c.mem_read addr from rfl]
  all_goals simp only [Nat.mod_mod_of_dvd _ (dvd_refl 256), m1, m2, m3, m4, m5, m6, m7, m8,
    a1, a2, a3, a4, a5, a6, a7, a8]
  all_goals refine ⟨by trivial, ?_, ?_, ?_, by trivial, ?_, ?_, ?_, by trivial, ?_, ?_, ?_,
    by trivial, ?_, ?_, ?_⟩
  all_goals simp only [containsFlag_CARRY, containsFlag_ZERO, containsFlag_NEGATIVE]
  all_goals split_ifs
  all_goals simp only [testBit_insertFlag, testBit_removeFlag, maskBits, decideBits,
    Bool.or_true, Bool.or_false, Bool.true_or, Bool.false_or, Bool.and_true,
    Bool.and_false, Bool.true_and, Bool.false_and, Bool.not_true, Bool.not_false,
    Bool.xor_false, Bool.xor_true, Bool.false_eq_true, false_iff, true_iff,
    decide_eq_true_eq]
  all_goals try omega
  all_goals simp only [Nat.testBit_to_div_mod, Nat.shiftRight_eq_div_pow,
    Nat.and_one_is_mod, decide_eq_true_eq] at *
  all_goals omega

/-- Witness for C8 at the sample state and address $0040. -/
theorem rol_ror_flags_correct_witness :
    sampleCpu.register_a < 256 ∧
    ((((sampleCpu.rol_at 0x40).1).mem_read 0x40
        = sampleCpu.mem_read 0x40 * 2 % 256
          + (if containsFlag sampleCpu.status CARRY then 1 else 0))
    ∧ (containsFlag ((sampleCpu.rol_at 0x40).1).status CARRY = true ↔
        (sampleCpu.mem_read 0x40).testBit 7)
    ∧ (containsFlag ((sampleCpu.rol_at 0x40).1).status ZERO = containsFlag sampleCpu.status ZERO)
    ∧ (containsFlag ((sampleCpu.rol_at 0x40).1).status NEGATIVE = true ↔
        (sampleCpu.mem_read 0x40 * 2 % 256
          + (if containsFlag sampleCpu.status CARRY then 1 else 0)).testBit 7)
    ∧ (((sampleCpu.ror_at 0x40).1).mem_read 0x40
        = sampleCpu.mem_read 0x40 / 2
          + (if containsFlag sampleCpu.status CARRY then 128 else 0))
    ∧ (containsFlag ((sampleCpu.ror_at 0x40).1).status CARRY = true ↔
        (sampleCpu.mem_read 0x40).testBit 0)
    ∧ (containsFlag ((sampleCpu.ror_at 0x40).1).status ZERO = containsFlag sampleCpu.status ZERO)
    ∧ (containsFlag ((sampleCpu.ror_at 0x40).1).status NEGATIVE = true ↔
        (sampleCpu.mem_read 0x40 / 2
          + (if containsFlag sampleCpu.status CARRY then 128 else 0)).testBit 7)
    ∧ ((sampleCpu.rol_acc).register_a
        = sampleCpu.register_a * 2 % 256
          + (if containsFlag sampleCpu.status CARRY then 1 else 0))
    ∧ (containsFlag (sampleCpu.rol_acc).status CARRY = true ↔ sampleCpu.register_a.testBit 7)
    ∧ (containsFlag (sampleCpu.rol_acc).status ZERO = true ↔
        sampleCpu.register_a * 2 % 256
          + (if containsFlag sampleCpu.status CARRY then 1 else 0) = 0)
    ∧ (containsFlag (sampleCpu.rol_acc).status NEGATIVE = true ↔
        (sampleCpu.register_a * 2 % 256
          + (if containsFlag sampleCpu.status CARRY then 1 else 0)).testBit 7)
    ∧ ((sampleCpu.ror_acc).register_a
        = sampleCpu.register_a / 2
          + (if containsFlag sampleCpu.status CARRY then 128 else 0))
    ∧ (containsFlag (sampleCpu.ror_acc).status CARRY = true ↔ sampleCpu.register_a.testBit 0)
    ∧ (containsFlag (sampleCpu.ror_acc).status ZERO = true ↔
        sampleCpu.register_a / 2
          + (if containsFlag sampleCpu.status CARRY then 128 else 0) = 0)
    ∧ (containsFlag (sampleCpu.ror_acc).status NEGATIVE = true ↔
        (sampleCpu.register_a / 2
          + (if containsFlag sampleCpu.status CARRY then 128 else 0)).testBit 7)) :=
  ⟨by decide, rol_ror_flags_correct sampleCpu 0x40 (by decide)⟩

/-- Counterexample to C5: with CARRY initially set, A = 0 and the operand
cell holding 2, DCP leaves CARRY set (it never clears it) while DEC followed
by CMP clears it, so the two status registers differ. -/
theorem dcp_dec_cmp_counterexample :
    containsFlag (dcpCex.dcp_at 0x10).status CARRY = true
    ∧ containsFlag ((dcpCex.dec_at 0x10).compare_at 0x10 dcpCex.register_a false).status CARRY
        = false := by
  decide

lemma mem_write_read_self (c : CPU) (a v : Nat) : (c.mem_write a v).mem_read a = v % 256 := by
  unfold CPU.mem_write CPU.mem_read
  simp only [if_pos rfl, if_true]
  omega

lemma compare_at_status (c : CPU) (addr cv : Nat) (pg : Bool) :
    (c.compare_at addr cv pg).status
      = znS (if c.mem_read addr ≤ cv then insertFlag c.status CARRY
             else removeFlag c.status CARRY)
            ((cv + 256 - c.mem_read addr) % 256) := by
  cases pg <;> rfl

set_option maxHeartbeats 1600000 in
/-- Claim C5 amended: DCP agrees with DEC-then-CMP on memory, A, X, Y and on
every status flag except CARRY; its CARRY is set when the decremented value
is ≤ A and otherwise left unchanged (never cleared). -/
theorem dcp_dec_cmp_amended (c : CPU) (addr : Nat) :
    (c.dcp_at addr).mem = ((c.dec_at addr).compare_at addr c.register_a false).mem
    ∧ (c.dcp_at addr).register_a
        = ((c.dec_at addr).compare_at addr c.register_a false).register_a
    ∧ (c.dcp_at addr).register_x
        = ((c.dec_at addr).compare_at addr c.register_a false).register_x
    ∧ (c.dcp_at addr).register_y
        = ((c.dec_at addr).compare_at addr c.register_a false).register_y
    ∧ (containsFlag (c.dcp_at addr).status ZERO
        = containsFlag ((c.dec_at addr).compare_at addr c.register_a false).status ZERO)
    ∧ (containsFlag (c.dcp_at addr).status NEGATIVE
        = containsFlag ((c.dec_at addr).compare_at addr c.register_a false).status NEGATIVE)
    ∧ (containsFlag (c.dcp_at addr).status OVERFLOW
        = containsFlag ((c.dec_at addr).compare_at addr c.register_a false).status OVERFLOW)
    ∧ (containsFlag (c.dcp_at addr).status INTERRUPT_DISABLE
        = containsFlag ((c.dec_at addr).compare_at addr c.register_a false).status
            INTERRUPT_DISABLE)
    ∧ (containsFlag (c.dcp_at addr).status DECIMAL_MODE
        = containsFlag ((c.dec_at addr).compare_at addr c.register_a false).status DECIMAL_MODE)
    ∧ (containsFlag (c.dcp_at addr).status BREAK
        = containsFlag ((c.dec_at addr).compare_at addr c.register_a false).status BREAK)
    ∧ (containsFlag (c.dcp_at addr).status BREAK2
        = containsFlag ((c.dec_at addr).compare_at addr c.register_a false).status BREAK2)
    ∧ (containsFlag (c.dcp_at addr).status CARRY
        = (containsFlag c.status CARRY
            || decide ((c.mem_read addr + 255) % 256 ≤ c.register_a))) := by
  have hread : (c.dec_at addr).mem_read addr = (c.mem_read addr + 255) % 256 := by
    show ((c.mem_write addr ((c.mem_read addr + 255) % 256)).mem_read addr) = _
    rw [mem_write_read_self]
    omega
  have hdec_st : (c.dec_at addr).status = znS c.status ((c.mem_read addr + 255) % 256) := rfl
  have hdcp : (c.dcp_at addr).status
      = znS (if (c.mem_read addr + 255) % 256 ≤ c.register_a
             then insertFlag c.status CARRY else c.status)
            ((c.register_a + 256 - (c.mem_read addr + 255) % 256) % 256) := rfl
  have hcmp : ((c.dec_at addr).compare_at addr c.register_a false).status
      = znS (if (c.mem_read addr + 255) % 256 ≤ c.register_a
             then insertFlag (znS c.status ((c.mem_read addr + 255) % 256)) CARRY
             else removeFlag (znS c.status ((c.mem_read addr + 255) % 256)) CARRY)
            ((c.register_a + 256 - (c.mem_read addr + 255) % 256) % 256) := by
    rw [compare_at_status, hread, hdec_st]
  refine ⟨rfl, rfl, rfl, rfl, ?_, ?_, ?_, ?_, ?_, ?_, ?_, ?_⟩
  all_goals simp only [hdcp, hcmp]
  all_goals unfold znS
  all_goals simp only [containsFlag_CARRY, containsFlag_ZERO, containsFlag_NEGATIVE,
    containsFlag_OVERFLOW, containsFlag_INTERRUPT_DISABLE, containsFlag_DECIMAL_MODE,
    containsFlag_BREAK, containsFlag_BREAK2]
  all_goals split_ifs
  all_goals simp only [testBit_insertFlag, testBit_removeFlag, maskBits, decideBits,
    Bool.or_true, Bool.or_false, Bool.true_or, Bool.false_or, Bool.and_true,
    Bool.and_false, Bool.true_and, Bool.false_and, Bool.not_true, Bool.not_false,
    Bool.xor_false, Bool.xor_true, Bool.false_eq_true, false_iff, true_iff,
    decide_eq_true_eq]
  all_goals simp_all

/-- Evaluation of the NMI service at the concrete state `nmiCpu`: the PC is
pushed high byte then low byte, INTERRUPT_DISABLE is set, 2 cycles are
charged, PC is loaded from the word at $FFFA — but the pushed status byte is
$04, i.e. bit 5 (U) is 0, not 1 as the claim (and spec §4.5) state, because
`b_flag_mask & 0b100000 == 1` in the source is never true. -/
theorem nmi_interrupt_eval :
    ((nmiCpu.interrupt_nmi).mem_read 0x1FD = 0x12)
    ∧ ((nmiCpu.interrupt_nmi).mem_read 0x1FC = 0x34)
    ∧ ((nmiCpu.interrupt_nmi).mem_read 0x1FB = 0x04)
    ∧ (containsFlag ((nmiCpu.interrupt_nmi).mem_read 0x1FB) BREAK2 = false)
    ∧ (containsFlag ((nmiCpu.interrupt_nmi).mem_read 0x1FB) BREAK = false)
    ∧ (containsFlag (nmiCpu.interrupt_nmi).status INTERRUPT_DISABLE = true)
    ∧ ((nmiCpu.interrupt_nmi).cycles = 2)
    ∧ ((nmiCpu.interrupt_nmi).stack_pointer = 0xFA)
    ∧ ((nmiCpu.interrupt_nmi).program_counter
        = nmiCpu.mem_read 0xFFFA + 256 * nmiCpu.mem_read 0xFFFB) := by
  decide

/-- Counterexample to C9 as stated: the run loop invokes the trace callback
once more before fetching the terminating BRK, so the collected trace has
four lines, not exactly three. -/
theorem trace_scenario_counterexample :
    (runTrace 10 traceCpu []).map List.length = some 4 := by
  decide

/-- Claim C9 amended: the scenario produces exactly the three claimed lines
followed by one further line for the terminating BRK opcode. -/
theorem trace_scenario_amended :
    runTrace 10 traceCpu []
      = some ["0064  A2 01     LDX #$01                        A:01 X:02 Y:03 P:24 SP:FD",
              "0066  CA        DEX                             A:01 X:01 Y:03 P:24 SP:FD",
              "0067  88        DEY                             A:01 X:00 Y:03 P:26 SP:FD",
              "0068  00        BRK                             A:01 X:00 Y:02 P:24 SP:FD"] := by
  decide
